import Mathlib

/-!
Shallow embedding of the speech-to-text backend:
the Deepgram/AssemblyAI service module (normalizers and the
submit-then-poll adapter) and the Express route handlers
(`POST /transcribe/web`, `GET /transcriptions/:id`).

JavaScript objects are embedded as structures with `Option` fields
(`none` = the key is absent or `null`/`undefined`); JS falsy-coalescing
`x || d` is embedded by helpers that treat `undefined`/`null`, the empty
string, `0` and `false` as falsy, exactly as JS does on the value types
that actually occur at each site.  Thrown errors are `Except.error`;
HTTP effects (provider calls, store inserts) are threaded explicitly.
-/

namespace SpeechToText

/-- JS `x || d` for string-valued fields: absent, null or empty string
falls back to the default. -/
def jsStrOr (x : Option String) (d : String) : String :=
  match x with
  | some s => if s = "" then d else s
  | none => d

/-- JS `x || null` for numeric fields: absent, null or `0` becomes null. -/
def jsRatOrNull (x : Option ℚ) : Option ℚ :=
  match x with
  | some v => if v = 0 then none else some v
  | none => none

/-- JS `x || null` for boolean fields: absent, null or `false` becomes null. -/
def jsBoolOrNull (x : Option Bool) : Option Bool :=
  match x with
  | some b => if b then some true else none
  | none => none

/-- JS template-literal rendering of a possibly absent string
(an absent value prints as the string `undefined`). -/
def jsShowOpt (x : Option String) : String :=
  x.getD "undefined"

/-- JS `String.prototype.split(".")` on the character list of a string:
splits at every dot, keeping empty segments. -/
def jsSplitDot : List Char → List (List Char)
  | [] => [[]]
  | c :: cs =>
    if c = '.' then [] :: jsSplitDot cs
    else
      match jsSplitDot cs with
      | [] => [[c]]
      | t :: ts => (c :: t) :: ts

/-!  Opaque per-item payloads passed through untouched by the code
(word entries, utterance/paragraph entries, chapter and entity entries,
speaker metadata).  As JS objects they are always truthy, so `x || dflt`
on a present value is the identity. -/

structure Word where
  val : Nat
deriving DecidableEq

structure Utterance where
  val : Nat
deriving DecidableEq

structure SpeakerInfo where
  val : Nat
deriving DecidableEq

structure Chapter where
  val : Nat
deriving DecidableEq

structure Entity where
  val : Nat
deriving DecidableEq

/-! ### Deepgram raw response shape (as the code reads it) -/

structure DeepgramParagraphs where
  paragraphs : Option (List Utterance)
deriving DecidableEq

structure DeepgramAlternative where
  transcript : Option String
  confidence : Option ℚ
  words : Option (List Word)
  paragraphs : Option DeepgramParagraphs
  speakers : Option SpeakerInfo
deriving DecidableEq

structure DeepgramChannel where
  alternatives : Option (List DeepgramAlternative)
deriving DecidableEq

structure DeepgramMetadata where
  language : Option String
  duration : Option ℚ
deriving DecidableEq

/-- The route reads `response.data.results.metadata`, the service reads
`data.metadata`; both optional keys are modelled. -/
structure DeepgramResults where
  channels : Option (List DeepgramChannel)
  metadata : Option DeepgramMetadata
deriving DecidableEq

structure DeepgramRaw where
  results : Option DeepgramResults
  metadata : Option DeepgramMetadata
deriving DecidableEq

/-! ### AssemblyAI raw transcript object (poll response body) -/

structure AssemblyAIRaw where
  status : String
  error : Option String
  text : Option String
  confidence : Option ℚ
  words : Option (List Word)
  language_code : Option String
  audio_duration : Option ℚ
  utterances : Option (List Utterance)
  speaker_labels : Option Bool
  chapters : Option (List Chapter)
  entities : Option (List Entity)
deriving DecidableEq

/-! ### Canonical (formatted) results returned by the service -/

structure DeepgramFormatted where
  text : Option String
  confidence : Option ℚ
  words : List Word
  language : String
  duration : Option ℚ
  utterances : List Utterance
  speaker_labels : Option SpeakerInfo
deriving DecidableEq

structure AssemblyFormatted where
  text : Option String
  confidence : Option ℚ
  words : List Word
  language : String
  duration : Option ℚ
  utterances : List Utterance
  speaker_labels : Option Bool
  chapters : List Chapter
  entities : List Entity
deriving DecidableEq

/-- `SpeechToTextService.formatDeepgramResponse`: validates
`results`/`channels`/`channels[0]` and the alternatives list, then maps
the best alternative onto the canonical shape.  Thrown `Error`s are
`Except.error` with the thrown message. -/
def formatDeepgramResponse (data : DeepgramRaw) : Except String DeepgramFormatted :=
  match data.results with
  | none => .error "Invalid Deepgram response format"
  | some results =>
    match results.channels with
    | none => .error "Invalid Deepgram response format"
    | some [] => .error "Invalid Deepgram response format"
    | some (channel :: _) =>
      match channel.alternatives with
      | none => .error "No transcription alternatives found"
      | some [] => .error "No transcription alternatives found"
      | some (bestAlternative :: _) =>
        .ok
          { text := bestAlternative.transcript
            confidence := bestAlternative.confidence
            words := bestAlternative.words.getD []
            language := jsStrOr (data.metadata.bind (·.language)) "en-US"
            duration := jsRatOrNull (data.metadata.bind (·.duration))
            utterances := (bestAlternative.paragraphs.bind (·.paragraphs)).getD []
            speaker_labels := bestAlternative.speakers }

/-- `SpeechToTextService.formatAssemblyAIResponse`: a total mapping,
with `|| default` fallbacks on every field except `text` and
`confidence`, which are passed through as-is. -/
def formatAssemblyAIResponse (data : AssemblyAIRaw) : AssemblyFormatted :=
  { text := data.text
    confidence := data.confidence
    words := data.words.getD []
    language := jsStrOr data.language_code "en"
    duration := jsRatOrNull data.audio_duration
    utterances := data.utterances.getD []
    speaker_labels := jsBoolOrNull data.speaker_labels
    chapters := data.chapters.getD []
    entities := data.entities.getD [] }

/-! ### The AssemblyAI submit-then-poll adapter -/

structure AssemblyUploadResp where
  upload_url : String
deriving DecidableEq

structure AssemblySubmitResp where
  id : String
deriving DecidableEq

deriving instance DecidableEq for Except

/-- Outcome of the `while (!transcript)` polling loop: the terminal
result, the number of status checks performed, and the total of the
fixed 1000 ms waits taken between checks. -/
structure PollRun where
  outcome : Except String AssemblyAIRaw
  checks : Nat
  waitedMs : Nat
deriving DecidableEq

/-- The polling loop, driven by the successive poll-response bodies.
Each list element is one `GET /v2/transcript/:id` response; `none`
means the supplied responses were exhausted while the loop was still
waiting (the real loop has no attempt bound and would keep polling). -/
def pollTranscript : List AssemblyAIRaw → Option PollRun
  | [] => none
  | r :: rs =>
    if r.status = "completed" then some ⟨.ok r, 1, 0⟩
    else if r.status = "error" then
      some ⟨.error ("AssemblyAI transcription failed: " ++ jsShowOpt r.error), 1, 0⟩
    else
      match pollTranscript rs with
      | none => none
      | some pr => some ⟨pr.outcome, pr.checks + 1, pr.waitedMs + 1000⟩

/-- Trace of one `transcribeWithAssemblyAI` call: the returned value or
thrown message, plus the observable effect counts. -/
structure AssemblyAdapterRun where
  outcome : Except String AssemblyFormatted
  statusChecks : Nat
  waitedMs : Nat
deriving DecidableEq

/-- `SpeechToTextService.transcribeWithAssemblyAI`: missing key throws
before the `try`; otherwise upload and job submission succeed with the
given bodies, then the poll loop runs over the given poll responses.
An error thrown inside the `try` (the poll loop's job-failed throw) is
re-wrapped by the `catch` with a second
`AssemblyAI transcription failed: ` layer around `error.message`. -/
def transcribeWithAssemblyAI (apiKey : Option String)
    (_uploadResp : AssemblyUploadResp) (_submitResp : AssemblySubmitResp)
    (polls : List AssemblyAIRaw) : Option AssemblyAdapterRun :=
  match apiKey with
  | none => some ⟨.error "AssemblyAI API key not configured", 0, 0⟩
  | some _ =>
    match pollTranscript polls with
    | none => none
    | some pr =>
      match pr.outcome with
      | .ok transcript => some ⟨.ok (formatAssemblyAIResponse transcript), pr.checks, pr.waitedMs⟩
      | .error msg =>
        some ⟨.error ("AssemblyAI transcription failed: " ++ msg), pr.checks, pr.waitedMs⟩

/-! ### Route `POST /transcribe/web` (src/routes/transcriptions.js) -/

/-- `req.file` as populated by multer (memory storage). -/
structure UploadFile where
  originalname : String
  size : Nat
  mimetype : Option String
deriving DecidableEq

/-- The environment variables the handler reads. -/
structure Env where
  deepgramApiKey : Option String
  deepgramProjectId : Option String
deriving DecidableEq

/-- An axios failure as the catch block reads it:
`error.response?.status`, `error.response?.data?.error`, `error.message`. -/
structure AxiosError where
  status : Option Nat
  dataError : Option String
  message : String
deriving DecidableEq

/-- What the Deepgram HTTP call would produce if issued. -/
inductive DeepgramOutcome
  | success (data : DeepgramRaw)
  | failure (e : AxiosError)
deriving DecidableEq

/-- The `transcription` object built by the route on success. -/
structure WebTranscription where
  text : Option String
  confidence : Option ℚ
  language : String
  duration : Option ℚ
deriving DecidableEq

/-- The row handed to `supabase.from("transcriptions").insert`. -/
structure InsertRow where
  filename : String
  original_text : Option String
  file_size : Nat
  file_type : String
  processing_time_ms : Nat
deriving DecidableEq

/-- A stored `transcriptions` row (see supabase-setup.sql). -/
structure TranscriptionRecord where
  id : String
  filename : String
  original_text : String
  file_size : Option Nat
  file_type : Option String
  processing_time_ms : Option Nat
  created_at : Nat
  updated_at : Nat
deriving DecidableEq

/-- What the store insert would produce if attempted. -/
inductive InsertOutcome
  | ok (record : TranscriptionRecord)
  | err (e : String)
deriving DecidableEq

def InsertOutcome.isOk : InsertOutcome → Bool
  | .ok _ => true
  | .err _ => false

/-- Query parameters sent with the Deepgram request. -/
structure ProviderParams where
  model : String
  language : String
  smart_format : Bool
  punctuate : Bool
  utterances : Bool
deriving DecidableEq

/-- The outbound Deepgram request the route builds. -/
structure ProviderRequest where
  url : String
  authToken : String
  contentType : String
  projectId : Option String
  params : ProviderParams
deriving DecidableEq

/-- The JSON body + status the route sends (absent keys are `none`). -/
structure WebResponse where
  status : Nat
  error : Option String
  message : Option String
  success : Option Bool
  transcription : Option WebTranscription
  service : Option String
  saved : Option Bool
  transcription_id : Option String
deriving DecidableEq

/-- One handler execution: the response plus the externally observable
effects (how many provider calls were issued, which request, how many
insert attempts, and with which row). -/
structure WebRun where
  response : WebResponse
  providerCalls : Nat
  providerRequest : Option ProviderRequest
  insertAttempts : Nat
  insertedRow : Option InsertRow
deriving DecidableEq

def GIB : Nat := 1024 * 1024 * 1024

def allowedFormats : List String := ["wav", "mp3", "m4a", "flac", "ogg", "webm"]

/-- `req.file.originalname.toLowerCase().split(".").pop()`. -/
def fileExt (name : String) : String :=
  String.mk ((jsSplitDot (name.data.map Char.toLower)).getLastD [])

/-- The `contentTypes` lookup table inside `getContentType`. -/
def contentTypesTable (ext : String) : Option String :=
  if ext = "mp3" then some "audio/mpeg"
  else if ext = "wav" then some "audio/wav"
  else if ext = "m4a" then some "audio/mp4"
  else if ext = "flac" then some "audio/flac"
  else if ext = "ogg" then some "audio/ogg"
  else if ext = "webm" then some "audio/webm"
  else none

/-- `getContentType`: extension lookup with `|| "audio/mpeg"` fallback. -/
def getContentType (filename : String) : String :=
  (contentTypesTable (fileExt filename)).getD "audio/mpeg"

/-- The axios request the route issues to `api.deepgram.com/v1/listen`. -/
def deepgramRequest (key : String) (env : Env) (contentType : String) : ProviderRequest :=
  { url := "https://api.deepgram.com/v1/listen"
    authToken := "Token " ++ key
    contentType := contentType
    projectId := env.deepgramProjectId
    params :=
      { model := "nova-2"
        language := "en-US"
        smart_format := true
        punctuate := true
        utterances := true } }

/-- The catch block's status-dependent `errorMessage` selection. -/
def deepgramErrorMessage (e : AxiosError) : String :=
  if e.status = some 401 then "Invalid API key. Please check your Deepgram credentials."
  else if e.status = some 413 then "Audio file too large. Please use a smaller file."
  else if e.status = some 400 then "Invalid audio format. Please use MP3, WAV, M4A, or FLAC."
  else
    match e.dataError with
    | some m => if m = "" then "Transcription failed" else m
    | none => "Transcription failed"

/-- The handler body after all four validation checks have passed:
issue the Deepgram call, check the result structure, build the
`transcription` object, read the clock twice in a row for
`processing_time_ms`, attempt the insert, and respond.  `dMs` is the
real elapsed time of the provider call and `clock0` the clock value
when the handler reached the call; `Date.now()` returns the current
clock, which only provider/store awaits advance. -/
def transcribeCore (f : UploadFile) (key : String) (env : Env)
    (provider : DeepgramOutcome) (ins : InsertOutcome)
    (dMs clock0 : Nat) : WebRun :=
  let contentType := getContentType f.originalname
  let request := deepgramRequest key env contentType
  match provider with
  | .failure e =>
    ⟨⟨500, some (deepgramErrorMessage e), some e.message, none, none, none, none, none⟩,
      1, some request, 0, none⟩
  | .success data =>
    match data.results with
    | none =>
      ⟨⟨500, some "No transcription results received", none, none, none, none, none, none⟩,
        1, some request, 0, none⟩
    | some results =>
      match results.channels with
      | none =>
        ⟨⟨500, some "No transcription results received", none, none, none, none, none, none⟩,
          1, some request, 0, none⟩
      | some [] =>
        ⟨⟨500, some "No transcription results received", none, none, none, none, none, none⟩,
          1, some request, 0, none⟩
      | some (channel :: _) =>
        match channel.alternatives with
        | none =>
          ⟨⟨500, some "No transcription alternatives found", none, none, none, none, none, none⟩,
            1, some request, 0, none⟩
        | some [] =>
          ⟨⟨500, some "No transcription alternatives found", none, none, none, none, none, none⟩,
            1, some request, 0, none⟩
        | some (bestAlternative :: _) =>
          let transcription : WebTranscription :=
            { text := bestAlternative.transcript
              confidence := bestAlternative.confidence
              language := "en-US"
              duration := jsRatOrNull (results.metadata.bind (·.duration)) }
          let clockAfterProvider := clock0 + dMs
          let startTime := clockAfterProvider
          let processingTime := clockAfterProvider - startTime
          let row : InsertRow :=
            { filename := f.originalname
              original_text := bestAlternative.transcript
              file_size := f.size
              file_type := jsStrOr f.mimetype contentType
              processing_time_ms := processingTime }
          match ins with
          | .ok record =>
            ⟨⟨200, none, none, some true, some transcription, some "deepgram",
                some true, some record.id⟩,
              1, some request, 1, some row⟩
          | .err _ =>
            ⟨⟨200, none, none, some true, some transcription, some "deepgram",
                some false, none⟩,
              1, some request, 1, some row⟩

/-- `POST /transcribe/web`: the four validation checks in source order,
then `transcribeCore`. -/
def transcribeWeb (file : Option UploadFile) (env : Env)
    (provider : DeepgramOutcome) (ins : InsertOutcome)
    (dMs clock0 : Nat) : WebRun :=
  match file with
  | none =>
    ⟨⟨400, some "No audio file provided", none, none, none, none, none, none⟩,
      0, none, 0, none⟩
  | some f =>
    if f.size > GIB then
      ⟨⟨413, some "File too large. Maximum size is 1GB.", none, none, none, none, none, none⟩,
        0, none, 0, none⟩
    else if allowedFormats.contains (fileExt f.originalname) = false then
      ⟨⟨400,
          some "Invalid audio format. Supported formats: MP3, WAV, M4A, FLAC, OGG, WEBM",
          none, none, none, none, none, none⟩,
        0, none, 0, none⟩
    else
      match env.deepgramApiKey with
      | none =>
        ⟨⟨500, some "Deepgram API key not configured", none, none, none, none, none, none⟩,
          0, none, 0, none⟩
      | some key => transcribeCore f key env provider ins dMs clock0

/-! ### Route `GET /transcriptions/:id` -/

/-- The `{ data, error }` pair destructured from the store call. -/
structure StoreSingleResp where
  data : Option TranscriptionRecord
  error : Option String
deriving DecidableEq

/-- The response of a CRUD route. -/
structure CrudResponse where
  status : Nat
  error : Option String
  record : Option TranscriptionRecord
deriving DecidableEq

/-- The `GET /transcriptions/:id` handler over the store's reply:
a store error is thrown and caught (500); otherwise a null `data`
yields 404, and a found record is returned with 200. -/
def getTranscriptionById (resp : StoreSingleResp) : CrudResponse :=
  match resp.error with
  | some _ => ⟨500, some "Failed to fetch transcription", none⟩
  | none =>
    match resp.data with
    | none => ⟨404, some "Transcription not found", none⟩
    | some r => ⟨200, none, some r⟩

/-- Modelled from the spec: the Row Store Client (the supabase client
configured in src/config, which is not among the provided sources) is
the external collaborator behind
`.from("transcriptions").select("*").eq("id", id).single()`.  Per the
spec's row-store interface ("select-by-id"; "Get by id: return one
record or NotFound"), looking up an absent id yields a null record and
no error. -/
def selectByIdSingle (store : List TranscriptionRecord) (id : String) : StoreSingleResp :=
  ⟨store.find? (fun r => r.id = id), none⟩

/-! ### Helper lemmas -/

/-- When the four validation checks pass, the handler proceeds to the
provider phase. -/
theorem transcribeWeb_passes_validation (f : UploadFile) (env : Env) (key : String)
    (provider : DeepgramOutcome) (ins : InsertOutcome) (dMs clock0 : Nat)
    (hsize : f.size ≤ GIB)
    (hfmt : allowedFormats.contains (fileExt f.originalname) = true)
    (hkey : env.deepgramApiKey = some key) :
    transcribeWeb (some f) env provider ins dMs clock0 =
      transcribeCore f key env provider ins dMs clock0 := by
  simp only [transcribeWeb]
  rw [if_neg (Nat.not_lt.mpr hsize), if_neg (by simpa using hfmt), hkey]

/-- ASCII lowercasing maps no character to a dot except the dot itself. -/
theorem toLower_eq_dot {c : Char} (h : c.toLower = '.') : c = '.' := by
  by_cases hc : c.toNat ≥ 65 ∧ c.toNat ≤ 90
  · exfalso
    have h' : Char.ofNat (c.toNat + 32) = '.' := by
      simpa [Char.toLower, hc] using h
    obtain ⟨h1, h2⟩ := hc
    generalize hn : c.toNat = n at h' h1 h2
    interval_cases n <;> exact absurd h' (by decide)
  · simpa [Char.toLower, hc] using h

theorem map_toLower_no_dot {l : List Char} (h : '.' ∉ l) :
    '.' ∉ l.map Char.toLower := by
  intro hmem
  obtain ⟨c, hcl, hceq⟩ := List.mem_map.mp hmem
  have hcd : c = '.' := toLower_eq_dot hceq
  exact h (hcd ▸ hcl)

theorem jsSplitDot_no_dot {l : List Char} (h : '.' ∉ l) : jsSplitDot l = [l] := by
  induction l with
  | nil => rfl
  | cons c cs ih =>
    have hc : ¬ c = '.' := by
      intro he
      exact h (by simp [he])
    have hcs : '.' ∉ cs := by
      intro hm
      exact h (by simp [hm])
    simp [jsSplitDot, hc, ih hcs]

/-- On a dot-free filename, `split(".").pop()` returns the whole
lowercased name. -/
theorem fileExt_no_dot {name : String} (h : '.' ∉ name.data) :
    fileExt name = String.mk (name.data.map Char.toLower) := by
  unfold fileExt
  rw [jsSplitDot_no_dot (map_toLower_no_dot h)]
  rfl

/-- Running the poll loop past a block of non-terminal status responses
adds one status check and one 1000 ms wait per response. -/
theorem pollTranscript_append_pending (pend : List AssemblyAIRaw) (r : AssemblyAIRaw)
    (rest : List AssemblyAIRaw)
    (hpend : ∀ p ∈ pend, p.status ≠ "completed" ∧ p.status ≠ "error") :
    pollTranscript (pend ++ r :: rest) =
      (pollTranscript (r :: rest)).map
        (fun pr => ⟨pr.outcome, pr.checks + pend.length, pr.waitedMs + pend.length * 1000⟩) := by
  induction pend with
  | nil =>
    cases h : pollTranscript (r :: rest) with
    | none => simp [h]
    | some pr => simp [h]
  | cons p ps ih =>
    have hp := hpend p (by simp)
    have hps : ∀ q ∈ ps, q.status ≠ "completed" ∧ q.status ≠ "error" :=
      fun q hq => hpend q (by simp [hq])
    have hstep : pollTranscript (p :: (ps ++ r :: rest)) =
        match pollTranscript (ps ++ r :: rest) with
        | none => none
        | some pr => some ⟨pr.outcome, pr.checks + 1, pr.waitedMs + 1000⟩ := by
      simp [pollTranscript, hp.1, hp.2]
    rw [List.cons_append, hstep, ih hps]
    cases h : pollTranscript (r :: rest) with
    | none => simp [h]
    | some pr =>
      simp [h]
      constructor
      · omega
      · omega

/-! ### Claim theorems -/

/-- Claim C2: when no record with the requested id exists in the store,
`GET /transcriptions/:id` answers 404 with an error body, not 500
(store select-by-id modelled from the spec as returning the record or
null without an error). -/
theorem getById_absent_returns_404 (store : List TranscriptionRecord) (id : String)
    (habs : ∀ r ∈ store, r.id ≠ id) :
    getTranscriptionById (selectByIdSingle store id) =
      ⟨404, some "Transcription not found", none⟩ := by
  have hfind : store.find? (fun r => r.id = id) = none := by
    apply List.find?_eq_none.mpr
    intro r hr
    simpa using habs r hr
  simp [getTranscriptionById, selectByIdSingle, hfind]

theorem getById_absent_returns_404_witness :
    getTranscriptionById (selectByIdSingle [] "b2a1") =
      ⟨404, some "Transcription not found", none⟩ :=
  getById_absent_returns_404 [] "b2a1" (by simp)

/-- Claim C4: the upload validation checks run in the fixed source
order (file present, size, extension, credentials); the first failing
check determines the response (400 / 413 / 400 / 500 with the
corresponding message) and no Deepgram call is issued when any check
fails. -/
theorem validation_order_first_failure_wins (env : Env) (provider : DeepgramOutcome)
    (ins : InsertOutcome) (dMs clock0 : Nat) :
    ((transcribeWeb none env provider ins dMs clock0).response.status = 400 ∧
      (transcribeWeb none env provider ins dMs clock0).response.error =
        some "No audio file provided" ∧
      (transcribeWeb none env provider ins dMs clock0).providerCalls = 0) ∧
    (∀ f : UploadFile, f.size > GIB →
      (transcribeWeb (some f) env provider ins dMs clock0).response.status = 413 ∧
      (transcribeWeb (some f) env provider ins dMs clock0).response.error =
        some "File too large. Maximum size is 1GB." ∧
      (transcribeWeb (some f) env provider ins dMs clock0).providerCalls = 0) ∧
    (∀ f : UploadFile, f.size ≤ GIB →
      allowedFormats.contains (fileExt f.originalname) = false →
      (transcribeWeb (some f) env provider ins dMs clock0).response.status = 400 ∧
      (transcribeWeb (some f) env provider ins dMs clock0).response.error =
        some "Invalid audio format. Supported formats: MP3, WAV, M4A, FLAC, OGG, WEBM" ∧
      (transcribeWeb (some f) env provider ins dMs clock0).providerCalls = 0) ∧
    (∀ f : UploadFile, f.size ≤ GIB →
      allowedFormats.contains (fileExt f.originalname) = true →
      env.deepgramApiKey = none →
      (transcribeWeb (some f) env provider ins dMs clock0).response.status = 500 ∧
      (transcribeWeb (some f) env provider ins dMs clock0).response.error =
        some "Deepgram API key not configured" ∧
      (transcribeWeb (some f) env provider ins dMs clock0).providerCalls = 0) := by
  refine ⟨⟨rfl, rfl, rfl⟩, ?_, ?_, ?_⟩
  · intro f hgt
    simp only [transcribeWeb]
    rw [if_pos hgt]
    exact ⟨rfl, rfl, rfl⟩
  · intro f hle hfmt
    simp only [transcribeWeb]
    rw [if_neg (Nat.not_lt.mpr hle), if_pos hfmt]
    exact ⟨rfl, rfl, rfl⟩
  · intro f hle hfmt hkey
    simp only [transcribeWeb]
    rw [if_neg (Nat.not_lt.mpr hle), if_neg (by simpa using hfmt), hkey]
    exact ⟨rfl, rfl, rfl⟩

theorem validation_order_first_failure_wins_witness :
    (transcribeWeb (some ⟨"clip.txt", 5, none⟩) ⟨some "k", none⟩
        (.failure ⟨none, none, "boom"⟩) (.err "down") 7 0).response.status = 400 ∧
    (transcribeWeb (some ⟨"clip.txt", 5, none⟩) ⟨some "k", none⟩
        (.failure ⟨none, none, "boom"⟩) (.err "down") 7 0).providerCalls = 0 := by
  have h := (validation_order_first_failure_wins ⟨some "k", none⟩
      (.failure ⟨none, none, "boom"⟩) (.err "down") 7 0).2.2.1
      ⟨"clip.txt", 5, none⟩ (by decide) (by decide)
  exact ⟨h.1, h.2.2⟩

/-- Claim C9: on a filename with no dot, `split(".").pop()` returns the
whole lowercased name, so a dot-free name that is itself an allowed
extension passes the format check, while any other dot-free name is
rejected with the unsupported-format 400. -/
theorem dotfree_filename_extension (name : String) (env : Env)
    (provider : DeepgramOutcome) (ins : InsertOutcome) (dMs clock0 : Nat)
    (sz : Nat) (mt : Option String)
    (hdot : '.' ∉ name.data) (hsz : sz ≤ GIB) :
    fileExt name = String.mk (name.data.map Char.toLower) ∧
    (allowedFormats.contains (String.mk (name.data.map Char.toLower)) = false →
      (transcribeWeb (some ⟨name, sz, mt⟩) env provider ins dMs clock0).response =
        ⟨400, some "Invalid audio format. Supported formats: MP3, WAV, M4A, FLAC, OGG, WEBM",
          none, none, none, none, none, none⟩ ∧
      (transcribeWeb (some ⟨name, sz, mt⟩) env provider ins dMs clock0).providerCalls = 0) ∧
    (allowedFormats.contains (String.mk (name.data.map Char.toLower)) = true →
      (transcribeWeb (some ⟨name, sz, mt⟩) ⟨none, env.deepgramProjectId⟩
          provider ins dMs clock0).response.status = 500 ∧
      (transcribeWeb (some ⟨name, sz, mt⟩) ⟨none, env.deepgramProjectId⟩
          provider ins dMs clock0).response.error =
        some "Deepgram API key not configured") := by
  have hx := fileExt_no_dot hdot
  refine ⟨hx, ?_, ?_⟩
  · intro hrej
    simp only [transcribeWeb]
    rw [if_neg (Nat.not_lt.mpr hsz), if_pos (by rw [hx]; exact hrej)]
    exact ⟨rfl, rfl⟩
  · intro hacc
    simp only [transcribeWeb]
    rw [if_neg (Nat.not_lt.mpr hsz), if_neg (by simp only [hx]; simpa using hacc)]
    exact ⟨rfl, rfl⟩

theorem dotfree_filename_extension_witness :
    (transcribeWeb (some ⟨"wav", 9, none⟩) ⟨none, none⟩
        (.failure ⟨none, none, "x"⟩) (.err "down") 3 0).response.status = 500 ∧
    (transcribeWeb (some ⟨"foo", 9, none⟩) ⟨none, none⟩
        (.failure ⟨none, none, "x"⟩) (.err "down") 3 0).response.status = 400 := by
  have h1 := ((dotfree_filename_extension "wav" ⟨none, none⟩
      (.failure ⟨none, none, "x"⟩) (.err "down") 3 0 9 none
      (by decide) (by decide)).2.2 (by decide)).1
  have h2 := ((dotfree_filename_extension "foo" ⟨none, none⟩
      (.failure ⟨none, none, "x"⟩) (.err "down") 3 0 9 none
      (by decide) (by decide)).2.1 (by decide)).1
  refine ⟨h1, ?_⟩
  rw [h2]

/-- Claim C1 (refuted by the code): the route reads `Date.now()` twice
back-to-back only after the provider call has already resolved
(`const startTime = Date.now(); const processingTime = Date.now() - startTime;`),
so the persisted `processing_time_ms` is always 0 and in particular
differs from any positive real duration `dMs` of the provider call. -/
theorem transcribe_processing_time_always_zero
    (f : UploadFile) (env : Env) (key : String) (ins : InsertOutcome)
    (dMs clock0 : Nat)
    (data : DeepgramRaw) (results : DeepgramResults)
    (channel : DeepgramChannel) (chs : List DeepgramChannel)
    (alt : DeepgramAlternative) (alts : List DeepgramAlternative)
    (hsize : f.size ≤ GIB)
    (hfmt : allowedFormats.contains (fileExt f.originalname) = true)
    (hkey : env.deepgramApiKey = some key)
    (hres : data.results = some results)
    (hch : results.channels = some (channel :: chs))
    (halt : channel.alternatives = some (alt :: alts)) :
    (transcribeWeb (some f) env (.success data) ins dMs clock0).insertedRow.map
        (fun row => row.processing_time_ms) = some 0 ∧
    (0 < dMs →
      (transcribeWeb (some f) env (.success data) ins dMs clock0).insertedRow.map
          (fun row => row.processing_time_ms) ≠ some dMs) := by
  rw [transcribeWeb_passes_validation f env key _ ins dMs clock0 hsize hfmt hkey]
  cases ins with
  | ok record =>
    constructor
    · simp [transcribeCore, hres, hch, halt]
    · intro hpos
      simp [transcribeCore, hres, hch, halt]
      omega
  | err e =>
    constructor
    · simp [transcribeCore, hres, hch, halt]
    · intro hpos
      simp [transcribeCore, hres, hch, halt]
      omega

/-! Shared concrete inputs for witnesses. -/

def sampleFile : UploadFile := ⟨"sample.wav", 10240, some "audio/wav"⟩

def sampleEnv : Env := ⟨some "dg-key", none⟩

def sampleAlt : DeepgramAlternative :=
  ⟨some "hello world", some ((95 : ℚ) / 100), none, none, none⟩

def sampleRaw : DeepgramRaw :=
  ⟨some ⟨some [⟨some [sampleAlt]⟩], none⟩, none⟩

def sampleRecord : TranscriptionRecord :=
  ⟨"rec-1", "sample.wav", "hello world", some 10240, some "audio/wav", some 0, 11, 11⟩

theorem transcribe_processing_time_always_zero_witness :
    0 < 5 ∧
    (transcribeWeb (some sampleFile) sampleEnv (.success sampleRaw)
        (.ok sampleRecord) 5 100).insertedRow.map
      (fun row => row.processing_time_ms) ≠ some 5 := by
  have h := transcribe_processing_time_always_zero sampleFile sampleEnv "dg-key"
    (.ok sampleRecord) 5 100 sampleRaw ⟨some [⟨some [sampleAlt]⟩], none⟩
    ⟨some [sampleAlt]⟩ [] sampleAlt []
    (by decide) (by decide) rfl rfl rfl rfl
  exact ⟨by decide, h.2 (by decide)⟩

/-- Claim C5: a provider response whose first channel has a missing or
empty alternatives list yields the typed "No transcription alternatives
found" failure on both paths: the route answers 500 with that error
body (attempting no insert), and the service normalizer returns the
same thrown message as a typed error. -/
theorem empty_alternatives_typed_error
    (f : UploadFile) (env : Env) (key : String) (ins : InsertOutcome)
    (dMs clock0 : Nat)
    (data : DeepgramRaw) (results : DeepgramResults) (channel : DeepgramChannel)
    (chs : List DeepgramChannel)
    (hsize : f.size ≤ GIB)
    (hfmt : allowedFormats.contains (fileExt f.originalname) = true)
    (hkey : env.deepgramApiKey = some key)
    (hres : data.results = some results)
    (hch : results.channels = some (channel :: chs))
    (halt : channel.alternatives = none ∨ channel.alternatives = some []) :
    (transcribeWeb (some f) env (.success data) ins dMs clock0).response =
      ⟨500, some "No transcription alternatives found", none, none, none, none, none, none⟩ ∧
    (transcribeWeb (some f) env (.success data) ins dMs clock0).insertAttempts = 0 ∧
    formatDeepgramResponse data = .error "No transcription alternatives found" := by
  rw [transcribeWeb_passes_validation f env key _ ins dMs clock0 hsize hfmt hkey]
  rcases halt with h | h <;>
    exact ⟨by simp [transcribeCore, hres, hch, h],
      by simp [transcribeCore, hres, hch, h],
      by simp [formatDeepgramResponse, hres, hch, h]⟩

def noAltRaw : DeepgramRaw := ⟨some ⟨some [⟨some []⟩], none⟩, none⟩

theorem empty_alternatives_typed_error_witness :
    (transcribeWeb (some sampleFile) sampleEnv (.success noAltRaw)
        (.ok sampleRecord) 5 100).response.status = 500 ∧
    formatDeepgramResponse noAltRaw = .error "No transcription alternatives found" := by
  have h := empty_alternatives_typed_error sampleFile sampleEnv "dg-key"
    (.ok sampleRecord) 5 100 noAltRaw ⟨some [⟨some []⟩], none⟩ ⟨some []⟩ []
    (by decide) (by decide) rfl rfl rfl (Or.inr rfl)
  refine ⟨?_, h.2.2⟩
  rw [h.1]

/-- Claim C6: when the transcription succeeded, the response carries
`success: true` and the transcription object regardless of the insert
outcome; `saved` is true exactly when the insert succeeded, and
`transcription_id` is present exactly when it succeeded (and is then
the stored record's id). -/
theorem persistence_failure_nonfatal
    (f : UploadFile) (env : Env) (key : String) (ins : InsertOutcome)
    (dMs clock0 : Nat)
    (data : DeepgramRaw) (results : DeepgramResults)
    (channel : DeepgramChannel) (chs : List DeepgramChannel)
    (alt : DeepgramAlternative) (alts : List DeepgramAlternative)
    (hsize : f.size ≤ GIB)
    (hfmt : allowedFormats.contains (fileExt f.originalname) = true)
    (hkey : env.deepgramApiKey = some key)
    (hres : data.results = some results)
    (hch : results.channels = some (channel :: chs))
    (halt : channel.alternatives = some (alt :: alts)) :
    (transcribeWeb (some f) env (.success data) ins dMs clock0).response.success =
      some true ∧
    (transcribeWeb (some f) env (.success data) ins dMs clock0).response.transcription =
      some ⟨alt.transcript, alt.confidence, "en-US",
        jsRatOrNull (results.metadata.bind (·.duration))⟩ ∧
    (transcribeWeb (some f) env (.success data) ins dMs clock0).response.saved =
      some ins.isOk ∧
    (transcribeWeb (some f) env (.success data) ins dMs clock0).response.transcription_id.isSome =
      ins.isOk ∧
    (∀ record, ins = .ok record →
      (transcribeWeb (some f) env (.success data) ins dMs clock0).response.transcription_id =
        some record.id) := by
  rw [transcribeWeb_passes_validation f env key _ ins dMs clock0 hsize hfmt hkey]
  cases ins with
  | ok record =>
    refine ⟨?_, ?_, ?_, ?_, ?_⟩ <;>
      simp [transcribeCore, hres, hch, halt, InsertOutcome.isOk]
  | err e =>
    refine ⟨?_, ?_, ?_, ?_, ?_⟩ <;>
      simp [transcribeCore, hres, hch, halt, InsertOutcome.isOk]

theorem persistence_failure_nonfatal_witness :
    (transcribeWeb (some sampleFile) sampleEnv (.success sampleRaw)
        (.err "store down") 5 100).response.success = some true ∧
    (transcribeWeb (some sampleFile) sampleEnv (.success sampleRaw)
        (.err "store down") 5 100).response.saved = some false ∧
    (transcribeWeb (some sampleFile) sampleEnv (.success sampleRaw)
        (.err "store down") 5 100).response.transcription_id = none := by
  have h := persistence_failure_nonfatal sampleFile sampleEnv "dg-key"
    (.err "store down") 5 100 sampleRaw ⟨some [⟨some [sampleAlt]⟩], none⟩
    ⟨some [sampleAlt]⟩ [] sampleAlt []
    (by decide) (by decide) rfl rfl rfl rfl
  refine ⟨h.1, h.2.2.1, ?_⟩
  have h4 := h.2.2.2.1
  simpa [InsertOutcome.isOk] using h4

/-- Claim C8: every upstream provider failure yields a 500 whose error
message is selected from the upstream HTTP status: 401 maps to the
invalid-credentials message, 413 to the file-too-large message, 400 to
the invalid-audio-format message, and any other failure passes through
the upstream-supplied `data.error` message. -/
theorem deepgram_upstream_error_mapping
    (f : UploadFile) (env : Env) (key : String) (ins : InsertOutcome)
    (dMs clock0 : Nat) (e : AxiosError)
    (hsize : f.size ≤ GIB)
    (hfmt : allowedFormats.contains (fileExt f.originalname) = true)
    (hkey : env.deepgramApiKey = some key) :
    (transcribeWeb (some f) env (.failure e) ins dMs clock0).response.status = 500 ∧
    (transcribeWeb (some f) env (.failure e) ins dMs clock0).response.error =
      some (deepgramErrorMessage e) ∧
    (e.status = some 401 →
      deepgramErrorMessage e = "Invalid API key. Please check your Deepgram credentials.") ∧
    (e.status = some 413 →
      deepgramErrorMessage e = "Audio file too large. Please use a smaller file.") ∧
    (e.status = some 400 →
      deepgramErrorMessage e = "Invalid audio format. Please use MP3, WAV, M4A, or FLAC.") ∧
    (∀ m, e.status ≠ some 401 → e.status ≠ some 413 → e.status ≠ some 400 →
      e.dataError = some m → m ≠ "" → deepgramErrorMessage e = m) := by
  rw [transcribeWeb_passes_validation f env key _ ins dMs clock0 hsize hfmt hkey]
  refine ⟨by simp [transcribeCore], by simp [transcribeCore], ?_, ?_, ?_, ?_⟩
  · intro h
    simp [deepgramErrorMessage, h]
  · intro h
    simp [deepgramErrorMessage, h]
  · intro h
    simp [deepgramErrorMessage, h]
  · intro m h1 h2 h3 hdata hm
    simp [deepgramErrorMessage, h1, h2, h3, hdata, hm]

theorem deepgram_upstream_error_mapping_witness :
    (transcribeWeb (some sampleFile) sampleEnv
        (.failure ⟨some 502, some "upstream exploded", "Request failed"⟩)
        (.ok sampleRecord) 5 100).response.status = 500 ∧
    (transcribeWeb (some sampleFile) sampleEnv
        (.failure ⟨some 502, some "upstream exploded", "Request failed"⟩)
        (.ok sampleRecord) 5 100).response.error = some "upstream exploded" := by
  have h := deepgram_upstream_error_mapping sampleFile sampleEnv "dg-key"
    (.ok sampleRecord) 5 100 ⟨some 502, some "upstream exploded", "Request failed"⟩
    (by decide) (by decide) rfl
  have hmsg := h.2.2.2.2.2 "upstream exploded"
    (by decide) (by decide) (by decide) rfl (by decide)
  refine ⟨h.1, ?_⟩
  rw [h.2.1, hmsg]

/-- In every post-validation branch the issued request is the fixed
Deepgram request, and any transcription object the route builds has
language `"en-US"`. -/
theorem transcribeCore_request_and_language (f : UploadFile) (key : String) (env : Env)
    (provider : DeepgramOutcome) (ins : InsertOutcome) (dMs clock0 : Nat) :
    (transcribeCore f key env provider ins dMs clock0).providerRequest =
      some (deepgramRequest key env (getContentType f.originalname)) ∧
    (∀ t, (transcribeCore f key env provider ins dMs clock0).response.transcription = some t →
      t.language = "en-US") := by
  cases provider with
  | failure e => simp [transcribeCore]
  | success data =>
    cases hr : data.results with
    | none => simp [transcribeCore, hr]
    | some results =>
      cases hc : results.channels with
      | none => simp [transcribeCore, hr, hc]
      | some channels =>
        cases channels with
        | nil => simp [transcribeCore, hr, hc]
        | cons channel chs =>
          cases ha : channel.alternatives with
          | none => simp [transcribeCore, hr, hc, ha]
          | some alts =>
            cases alts with
            | nil => simp [transcribeCore, hr, hc, ha]
            | cons alt rest =>
              cases ins with
              | ok record =>
                refine ⟨by simp [transcribeCore, hr, hc, ha], ?_⟩
                intro t ht
                simp [transcribeCore, hr, hc, ha] at ht
                rw [← ht]
              | err e =>
                refine ⟨by simp [transcribeCore, hr, hc, ha], ?_⟩
                intro t ht
                simp [transcribeCore, hr, hc, ha] at ht
                rw [← ht]

/-- Claim C10: for every upload passing validation, the Deepgram request
carries the fixed options `model = "nova-2"` and `language = "en-US"`
(the handler takes no client-supplied options at all), and any
transcription object returned to the client has language `"en-US"`. -/
theorem fixed_provider_options
    (f : UploadFile) (env : Env) (key : String) (provider : DeepgramOutcome)
    (ins : InsertOutcome) (dMs clock0 : Nat)
    (hsize : f.size ≤ GIB)
    (hfmt : allowedFormats.contains (fileExt f.originalname) = true)
    (hkey : env.deepgramApiKey = some key) :
    (transcribeWeb (some f) env provider ins dMs clock0).providerRequest =
      some (deepgramRequest key env (getContentType f.originalname)) ∧
    (deepgramRequest key env (getContentType f.originalname)).params.model = "nova-2" ∧
    (deepgramRequest key env (getContentType f.originalname)).params.language = "en-US" ∧
    (∀ t, (transcribeWeb (some f) env provider ins dMs clock0).response.transcription = some t →
      t.language = "en-US") := by
  rw [transcribeWeb_passes_validation f env key provider ins dMs clock0 hsize hfmt hkey]
  obtain ⟨h1, h2⟩ := transcribeCore_request_and_language f key env provider ins dMs clock0
  exact ⟨h1, rfl, rfl, h2⟩

theorem fixed_provider_options_witness :
    (transcribeWeb (some sampleFile) sampleEnv (.success sampleRaw)
        (.ok sampleRecord) 5 100).providerRequest =
      some (deepgramRequest "dg-key" sampleEnv (getContentType "sample.wav")) ∧
    (deepgramRequest "dg-key" sampleEnv (getContentType "sample.wav")).params.model =
      "nova-2" := by
  have h := fixed_provider_options sampleFile sampleEnv "dg-key" (.success sampleRaw)
    (.ok sampleRecord) 5 100 (by decide) (by decide) rfl
  exact ⟨h.1, h.2.1⟩

/-! ### Claim C3 -/

def dgMissingText : DeepgramRaw :=
  ⟨some ⟨some [⟨some [⟨none, none, none, none, none⟩]⟩], none⟩, none⟩

def aaiMissingText : AssemblyAIRaw :=
  ⟨"completed", none, none, none, none, none, none, none, none, none, none⟩

/-- Claim C3 counterexample: with the transcript text field absent,
neither normalizer fails — `formatDeepgramResponse` returns a canonical
result with `text` absent, and `formatAssemblyAIResponse` (a total
function) does the same. -/
theorem normalizer_missing_text_counterexample :
    formatDeepgramResponse dgMissingText = .ok ⟨none, none, [], "en-US", none, [], none⟩ ∧
    formatAssemblyAIResponse aaiMissingText = ⟨none, none, [], "en", none, [], none, [], []⟩ := by
  exact ⟨rfl, rfl⟩

/-- Claim C3 as amended: absence of the transcript text does not make
the normalizers fail; they return a canonical result with `text`
absent, and every other absent field defaults to null or an empty
sequence (the only failures are the Deepgram structural checks on
`results`/`channels`/`alternatives`; `formatAssemblyAIResponse` never
fails). -/
theorem normalizers_tolerate_missing_text :
    (∀ (data : DeepgramRaw) (results : DeepgramResults) (channel : DeepgramChannel)
        (chs : List DeepgramChannel) (alt : DeepgramAlternative)
        (alts : List DeepgramAlternative),
      data.results = some results → results.channels = some (channel :: chs) →
      channel.alternatives = some (alt :: alts) →
      alt.transcript = none → alt.words = none → alt.paragraphs = none →
      alt.speakers = none → data.metadata = none →
      formatDeepgramResponse data = .ok ⟨none, alt.confidence, [], "en-US", none, [], none⟩) ∧
    (∀ data : AssemblyAIRaw,
      data.text = none → data.words = none → data.language_code = none →
      data.audio_duration = none → data.utterances = none → data.speaker_labels = none →
      data.chapters = none → data.entities = none →
      formatAssemblyAIResponse data = ⟨none, data.confidence, [], "en", none, [], none, [], []⟩) := by
  constructor
  · intro data results channel chs alt alts hres hch halt ht hw hp hs hmd
    simp [formatDeepgramResponse, hres, hch, halt, ht, hw, hp, hs, hmd, jsStrOr, jsRatOrNull]
  · intro data ht hw hl hd hu hs hc he
    simp [formatAssemblyAIResponse, ht, hw, hl, hd, hu, hs, hc, he,
      jsStrOr, jsRatOrNull, jsBoolOrNull]

theorem normalizers_tolerate_missing_text_witness :
    formatAssemblyAIResponse aaiMissingText = ⟨none, none, [], "en", none, [], none, [], []⟩ :=
  normalizers_tolerate_missing_text.2 aaiMissingText rfl rfl rfl rfl rfl rfl rfl rfl

/-! ### Claim C7 -/

/-- Claim C7: if the polled status sequence shows its first terminal
status on the n-th poll, the adapter performs exactly n status checks
with a fixed 1000 ms wait between consecutive checks and no bound on
the number of attempts; on `completed` it returns the normalized
transcript, and on `error` it fails with a message built from the
provider-supplied error (wrapped twice by the adapter's own throw and
its catch-rethrow). -/
theorem assemblyai_poll_call_counts (key : String)
    (up : AssemblyUploadResp) (sub : AssemblySubmitResp)
    (pend : List AssemblyAIRaw) (r : AssemblyAIRaw) (rest : List AssemblyAIRaw)
    (hpend : ∀ p ∈ pend, p.status ≠ "completed" ∧ p.status ≠ "error") :
    (r.status = "completed" →
      transcribeWithAssemblyAI (some key) up sub (pend ++ r :: rest) =
        some ⟨.ok (formatAssemblyAIResponse r), pend.length + 1, pend.length * 1000⟩) ∧
    (r.status = "error" →
      transcribeWithAssemblyAI (some key) up sub (pend ++ r :: rest) =
        some ⟨.error ("AssemblyAI transcription failed: " ++
            ("AssemblyAI transcription failed: " ++ jsShowOpt r.error)),
          pend.length + 1, pend.length * 1000⟩) := by
  have hmap := pollTranscript_append_pending pend r rest hpend
  constructor
  · intro hst
    have hone : pollTranscript (r :: rest) = some ⟨.ok r, 1, 0⟩ := by
      simp only [pollTranscript]
      rw [if_pos hst]
    rw [show transcribeWithAssemblyAI (some key) up sub (pend ++ r :: rest) =
        match pollTranscript (pend ++ r :: rest) with
        | none => none
        | some pr =>
          match pr.outcome with
          | .ok transcript =>
            some ⟨.ok (formatAssemblyAIResponse transcript), pr.checks, pr.waitedMs⟩
          | .error msg =>
            some ⟨.error ("AssemblyAI transcription failed: " ++ msg), pr.checks, pr.waitedMs⟩
      from rfl, hmap, hone]
    simp
    omega
  · intro hst
    have hone : pollTranscript (r :: rest) =
        some ⟨.error ("AssemblyAI transcription failed: " ++ jsShowOpt r.error), 1, 0⟩ := by
      simp only [pollTranscript]
      rw [if_neg (by rw [hst]; decide), if_pos hst]
    rw [show transcribeWithAssemblyAI (some key) up sub (pend ++ r :: rest) =
        match pollTranscript (pend ++ r :: rest) with
        | none => none
        | some pr =>
          match pr.outcome with
          | .ok transcript =>
            some ⟨.ok (formatAssemblyAIResponse transcript), pr.checks, pr.waitedMs⟩
          | .error msg =>
            some ⟨.error ("AssemblyAI transcription failed: " ++ msg), pr.checks, pr.waitedMs⟩
      from rfl, hmap, hone]
    simp
    omega

def aaiQueued : AssemblyAIRaw :=
  ⟨"queued", none, none, none, none, none, none, none, none, none, none⟩

def aaiProcessing : AssemblyAIRaw :=
  ⟨"processing", none, none, none, none, none, none, none, none, none, none⟩

def aaiDone : AssemblyAIRaw :=
  ⟨"completed", none, some "hello world", some ((9 : ℚ) / 10), none, some "en",
    none, none, none, none, none⟩

theorem assemblyai_poll_call_counts_witness :
    transcribeWithAssemblyAI (some "aai-key") ⟨"https://upload"⟩ ⟨"tid"⟩
        [aaiQueued, aaiProcessing, aaiDone] =
      some ⟨.ok (formatAssemblyAIResponse aaiDone), 3, 2000⟩ := by
  have h := (assemblyai_poll_call_counts "aai-key" ⟨"https://upload"⟩ ⟨"tid"⟩
      [aaiQueued, aaiProcessing] aaiDone [] (by decide)).1 rfl
  simpa using h

end SpeechToText
